import Mathlib

/-!
Verification of the funding-rate arbitrage bot.

The development is a shallow embedding of the repository sources:

* `strategy.py` — the `FundingArbStrategy` engine (state machine, position
  store, tick logic) is embedded as pure functions over an explicit
  `EngineState`; the results of the two order-placement API calls are
  passed in as `Except` values so that both the success path and the
  exception path of a tick are captured.
* `mannual.py` — the signed request builder (`sign`, `request`), the
  symbol decomposition (`derive_mix_params`) and the endpoint-fallback
  loop of `place_spot_order`.
* `streamlit_app.py` — the endpoint-fallback loop of
  `BitgetAPI.get_mark_price`.

Python floats are modelled as exact rationals: every finite double is a
rational number, the json serializer round-trips finite doubles exactly,
and all arithmetic the claims touch is
addition/subtraction/division/comparison, which the rational model
reproduces faithfully.  JSON documents are modelled by the `Json`
inductive below; the Python values `None` and JSON `null` coincide in
this model (both behave identically in the embedded code paths:
truthiness, `is not None` tests, and `dict.get` defaults).
-/

/-- JSON values as handled by the json module of the sources.  Numbers
are exact rationals (see the file header). -/
inductive Json where
  | null : Json
  | bool (b : Bool) : Json
  | num (q : ℚ) : Json
  | str (s : String) : Json
  | arr (xs : List Json) : Json
  | obj (fields : List (String × Json)) : Json

/-- Python `d.get(key)` on a JSON object: the value under the first
matching key, `null` (Python `None`) when the key is absent. -/
def jget : List (String × Json) → String → Json
  | [], _ => Json.null
  | (k, v) :: rest, key => if k = key then v else jget rest key

/-- Python truthiness of a JSON value: `None`, `False`, `0`, `""`, `[]`
and the empty dict are falsy, everything else is truthy. -/
def truthy : Json → Bool
  | Json.null => false
  | Json.bool b => b
  | Json.num q => decide (q ≠ 0)
  | Json.str s => decide (s ≠ "")
  | Json.arr xs => !xs.isEmpty
  | Json.obj fs => !fs.isEmpty

/-- Python `a or b`: `a` when truthy, otherwise `b`. -/
def pyOr (a b : Json) : Json := if truthy a then a else b

/-- The `PositionState` dataclass of `strategy.py` (the Position entity
of the spec).  Field names follow the source. -/
structure PositionState where
  symbol_spot : String
  symbol_perp : String
  usd_notional : ℚ
  spot_qty : ℚ
  perp_size : ℚ
  entry_mark_price : ℚ
  opened_ts : ℚ
  closed_ts : Option ℚ := none
deriving DecidableEq

/-- `dataclasses.asdict` applied to a `PositionState`, as serialized by
`json.dump` in `FundingArbStrategy._save_state`. -/
def positionToJson (p : PositionState) : Json :=
  Json.obj [
    ("symbol_spot", Json.str p.symbol_spot),
    ("symbol_perp", Json.str p.symbol_perp),
    ("usd_notional", Json.num p.usd_notional),
    ("spot_qty", Json.num p.spot_qty),
    ("perp_size", Json.num p.perp_size),
    ("entry_mark_price", Json.num p.entry_mark_price),
    ("opened_ts", Json.num p.opened_ts),
    ("closed_ts", match p.closed_ts with
                  | none => Json.null
                  | some t => Json.num t)]

/-- Reads a string-typed dataclass field value. -/
def asStr : Json → Option String
  | Json.str s => some s
  | _ => none

/-- Reads a float-typed dataclass field value. -/
def asNum : Json → Option ℚ
  | Json.num q => some q
  | _ => none

/-- Reads the optional `closed_ts` field: JSON `null` (or an absent key,
which `jget` also reports as `null`) is `None`. -/
def asOptNum : Json → Option (Option ℚ)
  | Json.null => some none
  | Json.num q => some (some q)
  | _ => none

/-- `PositionState(**pos)` applied to a decoded JSON object `pos`, as in
`FundingArbStrategy._load_state`: the seven required fields must be
present with their declared types, `closed_ts` defaults to `None`.
`none` models the `TypeError` the dataclass constructor raises on a
malformed record. -/
def positionFromJson : Json → Option PositionState
  | Json.obj fs => do
      let ss ← asStr (jget fs "symbol_spot")
      let sp ← asStr (jget fs "symbol_perp")
      let un ← asNum (jget fs "usd_notional")
      let sq ← asNum (jget fs "spot_qty")
      let ps ← asNum (jget fs "perp_size")
      let em ← asNum (jget fs "entry_mark_price")
      let ot ← asNum (jget fs "opened_ts")
      let ct ← asOptNum (jget fs "closed_ts")
      pure ⟨ss, sp, un, sq, ps, em, ot, ct⟩
  | _ => none

/-- The document `FundingArbStrategy._save_state` writes to
`state.json`: an object whose single `position` field is either the
serialized position or `null`. -/
def save_state_doc (position : Option PositionState) : Json :=
  Json.obj [("position",
    match position with
    | none => Json.null
    | some p => positionToJson p)]

/-- `FundingArbStrategy._load_state`: a missing file (the input `none`,
Python `FileNotFoundError`) yields no position; otherwise the value
under the `position` key is decoded when truthy and treated as absent
when falsy (`null`, in particular).  A malformed document raises, which
the source does not catch; that is the `Except.error` branch. -/
def load_state : Option Json → Except String (Option PositionState)
  | none => Except.ok none
  | some (Json.obj fs) =>
      let pos := jget fs "position"
      if truthy pos then
        match positionFromJson pos with
        | some p => Except.ok (some p)
        | none => Except.error "TypeError"
      else Except.ok none
  | some _ => Except.error "AttributeError"

/-- C2: saving any Position value p to the Position Store and then
loading returns exactly p, and likewise for the absent (no-position)
case: every field — the strings, the exact rational images of the
floats, and the optional closedAt — is reproduced unchanged. -/
theorem load_state_save_state_roundtrip (v : Option PositionState) :
    load_state (some (save_state_doc v)) = Except.ok v := by
  cases v with
  | none => rfl
  | some p =>
    obtain ⟨ss, sp, un, sq, ps, em, ot, ct⟩ := p
    cases ct <;> rfl

/-- Round-half-even of a rational, the rounding Python uses when
formatting a float with a fixed number of fractional digits. -/
def roundHalfEven (x : ℚ) : ℤ :=
  if x - ⌊x⌋ < 1/2 then ⌊x⌋
  else if 1/2 < x - ⌊x⌋ then ⌊x⌋ + 1
  else if ⌊x⌋ % 2 = 0 then ⌊x⌋ else ⌊x⌋ + 1

/-- Zero-padded decimal rendering of a natural number to a fixed width. -/
def natPad (n width : ℕ) : String :=
  let s := toString n
  String.mk (List.replicate (width - s.length) '0') ++ s

/-- Fixed-point formatting with `prec` fractional digits, the model of
the format specifier `.6f` (and `.2f`) applied to a float in the
sources. -/
def fmtFixed (prec : ℕ) (x : ℚ) : String :=
  let n := roundHalfEven (x * ((10 : ℚ) ^ prec))
  let a := n.natAbs
  (if n < 0 then "-" else "") ++ toString (a / 10 ^ prec) ++ "." ++ natPad (a % 10 ^ prec) prec

/-- Numeric value of the `fmtFixed prec` rendering of `x`: the model of
parsing the formatted quantity string back to a float, as
`_open_pair_trade` does when it stores `float(qty_str)`. -/
def valFixed (prec : ℕ) (x : ℚ) : ℚ :=
  (roundHalfEven (x * ((10 : ℚ) ^ prec)) : ℚ) / ((10 : ℚ) ^ prec)

/-- An order submitted through the API layer, carrying exactly the
arguments the engine passes to `place_spot_order` / `place_mix_order`;
quantities are the formatted strings the source sends. -/
inductive Order where
  | spotOrder (symbol side quantity orderType : String) (quoteAmount : Option String) : Order
  | mixOrder (symbol marginCoin side size orderType : String) : Order
deriving DecidableEq

/-- The configuration fields of `FundingArbStrategy.__init__` the tick
logic reads. -/
structure StrategyCfg where
  symbol_spot : String
  symbol_perp : String
  funding_threshold : ℚ
  margin_coin : String
  target_usd_notional : ℚ

/-- The engine-visible state: the in-memory `self.position` and the
contents of the `state.json` file (`none` when the file does not
exist). -/
structure EngineState where
  position : Option PositionState
  store : Option Json

/-- A tick step result: the engine state after the step, the orders
submitted to the exchange during the step (in submission order), and
the uncaught exception if one was raised. -/
def TickResult := EngineState × List Order × Option String

/-- `FundingArbStrategy._open_pair_trade`.  `mark_price` is the value
the normalizer returned for the mark-price fetch, `now` the tick time,
and `spotRes` / `perpRes` the outcomes of the two order calls.  The
position is constructed and `_save_state` runs only after both calls
return; an exception aborts the method with the state unchanged. -/
def open_pair_trade (cfg : StrategyCfg) (mark_price now : ℚ)
    (spotRes perpRes : Except String Json) (s : EngineState) : TickResult :=
  let usd := cfg.target_usd_notional
  let spot_qty := max (usd / mark_price) (1/100000)
  let qty_str := fmtFixed 6 spot_qty
  let spotOrd := Order.spotOrder cfg.symbol_spot "buy" qty_str "market" (some (fmtFixed 2 usd))
  match spotRes with
  | Except.error e => (s, [spotOrd], some e)
  | Except.ok _ =>
    let perpOrd := Order.mixOrder cfg.symbol_perp cfg.margin_coin "open_short" qty_str "market"
    match perpRes with
    | Except.error e => (s, [spotOrd, perpOrd], some e)
    | Except.ok _ =>
      let pos : PositionState :=
        { symbol_spot := cfg.symbol_spot
          symbol_perp := cfg.symbol_perp
          usd_notional := usd
          spot_qty := valFixed 6 spot_qty
          perp_size := valFixed 6 spot_qty
          entry_mark_price := mark_price
          opened_ts := now
          closed_ts := none }
      ({ position := some pos, store := some (save_state_doc (some pos)) },
       [spotOrd, perpOrd], none)

/-- `FundingArbStrategy._close_pair_trade`.  Both legs are sized from
the stored `spot_qty`; on success the position is stamped with
`closed_ts`, `_save_state` persists the stamped position (the source
saves before it clears `self.position`), and only the in-memory
position is then set to `None`. -/
def close_pair_trade (cfg : StrategyCfg) (now : ℚ)
    (spotRes perpRes : Except String Json) (s : EngineState) : TickResult :=
  match s.position with
  | none => (s, [], none)
  | some p =>
    let qty_str := fmtFixed 6 p.spot_qty
    let spotOrd := Order.spotOrder cfg.symbol_spot "sell" qty_str "market" none
    match spotRes with
    | Except.error e => (s, [spotOrd], some e)
    | Except.ok _ =>
      let perpOrd := Order.mixOrder cfg.symbol_perp cfg.margin_coin "close_short" qty_str "market"
      match perpRes with
      | Except.error e => (s, [spotOrd, perpOrd], some e)
      | Except.ok _ =>
        let stamped := { p with closed_ts := some now }
        ({ position := none, store := some (save_state_doc (some stamped)) },
         [spotOrd, perpOrd], none)

/-- `FundingArbStrategy.check_and_trade`: while Idle, open when the
funding rate is at or above the threshold; while Open, close when the
funding rate drops below the threshold, or when strictly more than
eight hours have elapsed since `opened_ts`; otherwise do nothing. -/
def check_and_trade (cfg : StrategyCfg) (funding mark_price now : ℚ)
    (spotRes perpRes : Except String Json) (s : EngineState) : TickResult :=
  match s.position with
  | none =>
    if funding ≥ cfg.funding_threshold then
      open_pair_trade cfg mark_price now spotRes perpRes s
    else (s, [], none)
  | some p =>
    if funding < cfg.funding_threshold then
      close_pair_trade cfg now spotRes perpRes s
    else if now - p.opened_ts > 8 * 3600 then
      close_pair_trade cfg now spotRes perpRes s
    else (s, [], none)

/-- Construction of a new `FundingArbStrategy` over a store file:
`__init__` calls `_load_state`, so the restored in-memory position is
whatever `load_state` yields on the file. -/
def restored_position (file : Option Json) : Except String (Option PositionState) :=
  load_state file


/-- Digit-string value used by `parsePyFloat`. -/
def digitsVal (cs : List Char) : Option ℕ :=
  if cs.isEmpty then none
  else
    cs.foldl
      (fun acc c =>
        match acc with
        | none => none
        | some n => if c.isDigit then some (n * 10 + (c.toNat - 48)) else none)
      (some 0)

/-- Python `float` on a plain decimal string (optional sign, integer
part, optional fractional part). -/
def parsePyFloat (s : String) : Option ℚ :=
  let cs := s.toList
  let signAndRest : ℚ × List Char :=
    match cs with
    | '-' :: r => (-1, r)
    | '+' :: r => (1, r)
    | r => (1, r)
  match (signAndRest.2).splitOn '.' with
  | [i] => (digitsVal i).map (fun n => signAndRest.1 * n)
  | [i, f] =>
      if i.isEmpty && f.isEmpty then none
      else
        match (if i.isEmpty then some 0 else digitsVal i),
              (if f.isEmpty then some 0 else digitsVal f) with
        | some a, some b =>
            some (signAndRest.1 * ((a : ℚ) + (b : ℚ) / ((10 : ℚ) ^ f.length)))
        | _, _ => none
  | _ => none

/-- Python `float(v)` applied to a decoded JSON value: numbers pass
through, booleans become 0 or 1, simple decimal strings are parsed;
anything else raises (the `none` branch). -/
def pyFloat : Json → Option ℚ
  | Json.num q => some q
  | Json.bool b => some (if b then 1 else 0)
  | Json.str s => parsePyFloat s
  | _ => none

/-- Tests a JSON value for Python `None` (the `is not None` check of
the normalizer). -/
def isNull : Json → Bool
  | Json.null => true
  | _ => false

/-- The field chain of `_get_mark_price`:
`d.get("markPrice") or d.get("close") or d.get("last")`. -/
def markChain (dfs : List (String × Json)) : Json :=
  pyOr (jget dfs "markPrice") (pyOr (jget dfs "close") (jget dfs "last"))

/-- `FundingArbStrategy._get_mark_price` applied to the raw API
response: the `data` field may be a mapping or a non-empty list whose
first element is a mapping; the candidate value is the `or`-chain over
`markPrice`, `close`, `last`; it is converted with `float` when it is
not `None`; every other path raises the unexpected-response error. -/
def get_mark_price_value (data : Json) : Except String ℚ :=
  match data with
  | Json.obj fs =>
      match jget fs "data" with
      | Json.obj dfs =>
          if isNull (markChain dfs) then Except.error "Unexpected mark price response"
          else
            match pyFloat (markChain dfs) with
            | some q => Except.ok q
            | none => Except.error "Unexpected mark price response"
      | Json.arr (first :: _) =>
          match first with
          | Json.obj dfs =>
              if isNull (markChain dfs) then Except.error "Unexpected mark price response"
              else
                match pyFloat (markChain dfs) with
                | some q => Except.ok q
                | none => Except.error "Unexpected mark price response"
          | _ => Except.error "Unexpected mark price response"
      | _ => Except.error "Unexpected mark price response"
  | _ => Except.error "Unexpected mark price response"

/-- The fallback loop of `place_spot_order` in `mannual.py`: each
endpoint variant is attempted once in order; the first success is
returned; a failure is remembered in `last_err`; when the list is
exhausted the most recent error is re-raised (or a generic error when
nothing was attempted). -/
def spot_order_loop : List (Except String Json) → Option String → Except String Json
  | [], some e => Except.error e
  | [], none => Except.error "Failed to place spot order"
  | Except.ok r :: _, _ => Except.ok r
  | Except.error e :: rest, _ => spot_order_loop rest (some e)

/-- `place_spot_order` endpoint fallback, entered with no last error. -/
def place_spot_order_resolve (attempts : List (Except String Json)) : Except String Json :=
  spot_order_loop attempts none

/-- The fallback loop of `BitgetAPI.get_mark_price` in
`streamlit_app.py`: each variant is attempted once in order, the first
success is returned verbatim, and exhaustion raises the fixed error
message, which does not carry the underlying variant error. -/
def get_mark_price_resolve : List (Except String Json) → Except String Json
  | [] => Except.error "Mark price fetch failed"
  | Except.ok r :: _ => Except.ok r
  | Except.error _ :: rest => get_mark_price_resolve rest

/-- ASCII uppercase of a string (Python `str.upper` on the ASCII
symbols the sources use). -/
def pyUpper (s : String) : String := String.mk (s.toList.map Char.toUpper)

/-- Boolean string-prefix test over the character lists. -/
def strStartsWith (s p : String) : Bool := p.toList.isPrefixOf s.toList

/-- Python `symbol.split("_", 1)`: the part before the first
underscore, and the remainder when an underscore exists. -/
def splitOnceAux : List Char → List Char → List Char × Option (List Char)
  | [], acc => (acc.reverse, none)
  | c :: rest, acc => if c = '_' then (acc.reverse, some rest) else splitOnceAux rest (c :: acc)

/-- Python `symbol.split("_", 1)` packaged on strings; `none` in the
second component means the symbol contains no underscore. -/
def pySplitOnce (s : String) : String × Option String :=
  match splitOnceAux s.toList [] with
  | (a, none) => (String.mk a, none)
  | (a, some b) => (String.mk a, some (String.mk b))

/-- `derive_mix_params` of `mannual.py`: decompose a composite
derivative symbol at the first underscore into the bare pair and a
product classification taken from the uppercased suffix (UMC prefix is
USDT-margined, CMC or DMC prefix is coin-margined, anything else keeps
the USDT default); a symbol without underscore is returned whole. -/
def derive_mix_params (symbol_perp : String) : String × String :=
  match pySplitOnce symbol_perp with
  | (_, none) => (symbol_perp, "USDT-FUTURES")
  | (p0, some p1) =>
      let core := if p0 = "" then symbol_perp else p0
      let suf := pyUpper p1
      let product_type :=
        if strStartsWith suf "UMC" then "USDT-FUTURES"
        else if strStartsWith suf "CMC" || strStartsWith suf "DMC" then "COIN-FUTURES"
        else "USDT-FUTURES"
      (core, product_type)

/-- Uppercase hexadecimal digit. -/
def hexUpper (n : ℕ) : Char := if n < 10 then Char.ofNat (48 + n) else Char.ofNat (55 + n)

/-- `urllib.parse.quote_plus` on one UTF-8 byte: alphanumerics and
`_ . - ~` stay, a space becomes `+`, everything else is
percent-encoded with uppercase hex. -/
def quotePlusByte (b : ℕ) : String :=
  if (65 ≤ b ∧ b ≤ 90) ∨ (97 ≤ b ∧ b ≤ 122) ∨ (48 ≤ b ∧ b ≤ 57)
      ∨ b = 95 ∨ b = 46 ∨ b = 45 ∨ b = 126 then
    String.mk [Char.ofNat b]
  else if b = 32 then "+"
  else String.mk ['%', hexUpper (b / 16), hexUpper (b % 16)]

/-- `urllib.parse.quote_plus` over the UTF-8 bytes of a string. -/
def quotePlus (s : String) : String :=
  String.join (s.toUTF8.toList.map (fun b => quotePlusByte b.toNat))

/-- `urllib.parse.urlencode` on scalar string parameters:
ampersand-joined `key=value` pairs, both sides quote_plus-encoded. -/
def urlencode (params : List (String × String)) : String :=
  String.intercalate "&" (params.map (fun kv => quotePlus kv.1 ++ "=" ++ quotePlus kv.2))

/-- `json.dumps` with default separators on a flat object whose values
are the plain strings the order bodies carry. -/
def jsonDumpsBody (body : List (String × String)) : String :=
  "\x7b" ++ String.intercalate ", "
    (body.map (fun kv => "\"" ++ kv.1 ++ "\": \"" ++ kv.2 ++ "\"")) ++ "\x7d"

/-- Standard base64 alphabet. -/
def b64Alphabet : String :=
  "ABCDEFGHIJKLMNOPQRSTUVWXYZabcdefghijklmnopqrstuvwxyz0123456789+/"

/-- Character of the base64 alphabet at a 6-bit index. -/
def b64Char (n : ℕ) : Char := b64Alphabet.toList.getD n 'A'

/-- Base64 encoding of a byte list, with `=` padding. -/
def base64Encode : List ℕ → String
  | [] => ""
  | [a] => String.mk [b64Char (a / 4), b64Char ((a % 4) * 16)] ++ "=="
  | [a, b] =>
      String.mk [b64Char (a / 4), b64Char ((a % 4) * 16 + b / 16),
                 b64Char ((b % 16) * 4)] ++ "="
  | a :: b :: c :: rest =>
      String.mk [b64Char (a / 4), b64Char ((a % 4) * 16 + b / 16),
                 b64Char ((b % 16) * 4 + c / 64), b64Char (c % 64)] ++ base64Encode rest

/-- The `sign` function of `mannual.py`: base64 of the HMAC-SHA256
digest of the prehash string keyed by the secret.  The digest
computation `mac` is the library primitive, taken as a parameter; the
source composes it with base64 exactly as here. -/
def sign (mac : String → String → List ℕ) (secret prehash : String) : String :=
  base64Encode (mac secret prehash)

/-- The authenticated-request data the `request` function of
`mannual.py` constructs for a fixed timestamp. -/
structure SignedRequest where
  request_path : String
  body_str : String
  prehash : String
  headers : List (String × String)

/-- The signing-relevant part of `request` in `mannual.py` with
`auth=True` and a fixed timestamp `ts`: the request path gains the
URL-encoded query string when params are non-empty; the body string is
the JSON-serialized body for non-GET requests with a non-empty body and
empty otherwise; the prehash is the concatenation of timestamp,
uppercased method, request path and body string; the signature header
is `sign` of the prehash. -/
def request_build (mac : String → String → List ℕ)
    (ts method path : String) (params body : List (String × String))
    (api_key api_secret api_passphrase : String) : SignedRequest :=
  let request_path := if params.isEmpty then path else path ++ "?" ++ urlencode params
  let body_str := if !body.isEmpty && pyUpper method ≠ "GET" then jsonDumpsBody body else ""
  let prehash := ts ++ pyUpper method ++ request_path ++ body_str
  let signature := sign mac api_secret prehash
  { request_path := request_path
    body_str := body_str
    prehash := prehash
    headers := [("Content-Type", "application/json"),
                ("ACCESS-KEY", api_key),
                ("ACCESS-SIGN", signature),
                ("ACCESS-TIMESTAMP", ts),
                ("ACCESS-PASSPHRASE", api_passphrase)] }

/-- Value of a header in a header list. -/
def headerValue (hs : List (String × String)) (k : String) : Option String :=
  (hs.find? (fun kv => kv.1 == k)).map (fun kv => kv.2)

/-- Configuration used by the concrete scenarios: the defaults of the
sources (threshold 0.0001, notional 50 USD, USDT margin). -/
def demoCfg : StrategyCfg :=
  { symbol_spot := "BTCUSDT"
    symbol_perp := "BTCUSDT_UMCBL"
    funding_threshold := 1/10000
    margin_coin := "USDT"
    target_usd_notional := 50 }

/-- An open position as the engine creates it at mark price 50000 with
the demo configuration. -/
def demoPos : PositionState :=
  { symbol_spot := "BTCUSDT"
    symbol_perp := "BTCUSDT_UMCBL"
    usd_notional := 50
    spot_qty := 1/1000
    perp_size := 1/1000
    entry_mark_price := 50000
    opened_ts := 0
    closed_ts := none }

lemma roundHalfEven_natCast (n : ℕ) : roundHalfEven (n : ℚ) = n := by
  have h0 : ((n : ℚ)) - ((⌊(n : ℚ)⌋ : ℤ) : ℚ) = 0 := by
    rw [Int.floor_natCast]
    push_cast
    ring
  unfold roundHalfEven
  rw [h0, if_pos (by norm_num : (0:ℚ) < 1/2), Int.floor_natCast]

lemma fmtFixed_eq_of_scale (prec : ℕ) (x : ℚ) (n : ℕ) (h : x * ((10 : ℚ) ^ prec) = (n : ℚ)) :
    fmtFixed prec x =
      (if ((n : ℤ)) < 0 then "-" else "") ++ toString ((n : ℤ).natAbs / 10 ^ prec)
        ++ "." ++ natPad ((n : ℤ).natAbs % 10 ^ prec) prec := by
  unfold fmtFixed
  rw [h, roundHalfEven_natCast]

lemma valFixed_eq_of_scale (prec : ℕ) (x : ℚ) (n : ℕ) (h : x * ((10 : ℚ) ^ prec) = (n : ℚ)) :
    valFixed prec x = (n : ℚ) / ((10 : ℚ) ^ prec) := by
  unfold valFixed
  rw [h, roundHalfEven_natCast]
  norm_num

/-- C1: a completed Open-to-Idle close clears the in-memory position,
but the engine saves while the stamped position is still held, so the
store keeps the closed record instead of the absent marker, and a new
engine constructed over the same store restores that record and starts
Open rather than Idle.  Concretely: the demo position opened at time 0
is closed by the tick at time 100 with funding 0 below the threshold
0.0001; reconstruction then yields the stamped position, not the
absent state the claim requires. -/
theorem close_tick_store_restores_open :
    (check_and_trade demoCfg 0 50000 100 (Except.ok Json.null) (Except.ok Json.null)
        ⟨some demoPos, some (save_state_doc (some demoPos))⟩).1.position = none ∧
    restored_position (check_and_trade demoCfg 0 50000 100 (Except.ok Json.null)
        (Except.ok Json.null)
        ⟨some demoPos, some (save_state_doc (some demoPos))⟩).1.store =
      Except.ok (some { demoPos with closed_ts := some 100 }) := by
  have hlt : (0:ℚ) < demoCfg.funding_threshold := by norm_num [demoCfg]
  constructor
  · simp only [check_and_trade]
    rw [if_pos hlt]
    rfl
  · simp only [check_and_trade]
    rw [if_pos hlt]
    rfl

/-- C3: while Idle, a tick whose observed funding rate is at or above
the threshold transitions to Open: exactly one market spot buy (with
the USD notional attached as quote amount) and exactly one market
open-short derivative order are issued, both sized to
max(usdNotional / markPrice, 0.00001) formatted to six fractional
digits, and a new position with spotQuantity equal to
derivativeQuantity is created and persisted. -/
theorem idle_high_funding_tick_opens (cfg : StrategyCfg) (funding mark now : ℚ)
    (r1 r2 : Json) (s : EngineState)
    (hpos : s.position = none) (hf : funding ≥ cfg.funding_threshold) :
    check_and_trade cfg funding mark now (Except.ok r1) (Except.ok r2) s =
      ({ position := some
           { symbol_spot := cfg.symbol_spot
             symbol_perp := cfg.symbol_perp
             usd_notional := cfg.target_usd_notional
             spot_qty := valFixed 6 (max (cfg.target_usd_notional / mark) (1/100000))
             perp_size := valFixed 6 (max (cfg.target_usd_notional / mark) (1/100000))
             entry_mark_price := mark
             opened_ts := now
             closed_ts := none }
         store := some (save_state_doc (some
           { symbol_spot := cfg.symbol_spot
             symbol_perp := cfg.symbol_perp
             usd_notional := cfg.target_usd_notional
             spot_qty := valFixed 6 (max (cfg.target_usd_notional / mark) (1/100000))
             perp_size := valFixed 6 (max (cfg.target_usd_notional / mark) (1/100000))
             entry_mark_price := mark
             opened_ts := now
             closed_ts := none })) },
       [Order.spotOrder cfg.symbol_spot "buy"
          (fmtFixed 6 (max (cfg.target_usd_notional / mark) (1/100000))) "market"
          (some (fmtFixed 2 cfg.target_usd_notional)),
        Order.mixOrder cfg.symbol_perp cfg.margin_coin "open_short"
          (fmtFixed 6 (max (cfg.target_usd_notional / mark) (1/100000))) "market"],
       none) := by
  obtain ⟨pos, st⟩ := s
  dsimp only at hpos
  subst hpos
  simp only [check_and_trade]
  rw [if_pos hf]
  rfl

/-- Witness for C3 at the concrete scenario of the spec: threshold
0.0001, notional 50 USD, mark price 50000, funding 0.00015; the engine
opens with both legs sized to the string "0.001000" and quote amount
"50.00", creating the demo position. -/
theorem idle_high_funding_tick_opens_witness :
    (⟨none, none⟩ : EngineState).position = none ∧
    (3/20000 : ℚ) ≥ demoCfg.funding_threshold ∧
    check_and_trade demoCfg (3/20000) 50000 0 (Except.ok Json.null) (Except.ok Json.null)
        ⟨none, none⟩ =
      ({ position := some demoPos, store := some (save_state_doc (some demoPos)) },
       [Order.spotOrder "BTCUSDT" "buy" "0.001000" "market" (some "50.00"),
        Order.mixOrder "BTCUSDT_UMCBL" "USDT" "open_short" "0.001000" "market"],
       none) := by
  refine ⟨rfl, by norm_num [demoCfg], ?_⟩
  have h := idle_high_funding_tick_opens demoCfg (3/20000) 50000 0 Json.null Json.null
    ⟨none, none⟩ rfl (by norm_num [demoCfg])
  rw [h]
  have hs : fmtFixed 6 (max (demoCfg.target_usd_notional / 50000) (1/100000)) = "0.001000" := by
    rw [fmtFixed_eq_of_scale 6 _ 1000 (by norm_num [demoCfg])]
    decide
  have hu : fmtFixed 2 demoCfg.target_usd_notional = "50.00" := by
    rw [fmtFixed_eq_of_scale 2 _ 5000 (by norm_num [demoCfg])]
    decide
  have hv : valFixed 6 (max (demoCfg.target_usd_notional / 50000) (1/100000)) = 1/1000 := by
    rw [valFixed_eq_of_scale 6 _ 1000 (by norm_num [demoCfg])]
    norm_num
  rw [hs, hu, hv]
  rfl

/-- C4: while Open, a tick whose observed funding rate is strictly
below the threshold closes the pair: exactly one market spot sell and
one market close-short derivative order are issued, sized to the
stored spotQuantity and derivativeQuantity (the mark price is not an
input of the close path at all), and the post-tick in-memory state is
Idle, so the next tick starts Idle. -/
theorem open_low_funding_tick_closes (cfg : StrategyCfg) (funding mark now : ℚ)
    (r1 r2 : Json) (s : EngineState) (p : PositionState)
    (hpos : s.position = some p) (hf : funding < cfg.funding_threshold)
    (hq : p.spot_qty = p.perp_size) :
    check_and_trade cfg funding mark now (Except.ok r1) (Except.ok r2) s =
      ({ position := none,
         store := some (save_state_doc (some { p with closed_ts := some now })) },
       [Order.spotOrder cfg.symbol_spot "sell" (fmtFixed 6 p.spot_qty) "market" none,
        Order.mixOrder cfg.symbol_perp cfg.margin_coin "close_short"
          (fmtFixed 6 p.perp_size) "market"],
       none) := by
  obtain ⟨pos, st⟩ := s
  dsimp only at hpos
  subst hpos
  simp only [check_and_trade]
  rw [if_pos hf]
  rw [show fmtFixed 6 p.perp_size = fmtFixed 6 p.spot_qty from by rw [hq]]
  rfl

/-- Witness for C4 at the spec scenario: the demo position opened with
quantity "0.001000" is closed at funding 0.00005 with both legs sized
to the stored quantity string "0.001000" (not recomputed from the new
mark price 60000), and the post-state is Idle. -/
theorem open_low_funding_tick_closes_witness :
    (⟨some demoPos, some (save_state_doc (some demoPos))⟩ : EngineState).position
        = some demoPos ∧
    (1/20000 : ℚ) < demoCfg.funding_threshold ∧
    demoPos.spot_qty = demoPos.perp_size ∧
    check_and_trade demoCfg (1/20000) 60000 100 (Except.ok Json.null) (Except.ok Json.null)
        ⟨some demoPos, some (save_state_doc (some demoPos))⟩ =
      ({ position := none,
         store := some (save_state_doc (some { demoPos with closed_ts := some 100 })) },
       [Order.spotOrder "BTCUSDT" "sell" "0.001000" "market" none,
        Order.mixOrder "BTCUSDT_UMCBL" "USDT" "close_short" "0.001000" "market"],
       none) := by
  refine ⟨rfl, by norm_num [demoCfg], rfl, ?_⟩
  have h := open_low_funding_tick_closes demoCfg (1/20000) 60000 100 Json.null Json.null
    ⟨some demoPos, some (save_state_doc (some demoPos))⟩ demoPos rfl
    (by norm_num [demoCfg]) rfl
  rw [h]
  have hs : fmtFixed 6 demoPos.spot_qty = "0.001000" := by
    rw [fmtFixed_eq_of_scale 6 _ 1000 (by norm_num [demoPos])]
    decide
  have hp : fmtFixed 6 demoPos.perp_size = "0.001000" := by
    rw [fmtFixed_eq_of_scale 6 _ 1000 (by norm_num [demoPos])]
    decide
  rw [hs, hp]
  rfl

/-- Counterexample to C5 as stated: at elapsed time exactly equal to
the eight-hour window (open at 0, tick at 28800) with funding still at
the threshold, the tick does nothing — the source closes only when the
elapsed time exceeds the window strictly, so the claimed
greater-or-equal trigger does not fire at the boundary. -/
theorem hold_window_boundary_tick_is_noop :
    check_and_trade demoCfg (1/10000) 50000 28800 (Except.ok Json.null) (Except.ok Json.null)
        ⟨some demoPos, some (save_state_doc (some demoPos))⟩ =
      (⟨some demoPos, some (save_state_doc (some demoPos))⟩, [], none) := by
  simp only [check_and_trade]
  rw [if_neg (show ¬((1/10000 : ℚ) < demoCfg.funding_threshold) by norm_num [demoCfg])]
  rw [if_neg (show ¬((28800 : ℚ) - demoPos.opened_ts > 8 * 3600) by norm_num [demoPos])]

/-- C5 (amended): while Open with funding still at or above the
threshold, a tick closes the position exactly when the elapsed time
since openedAt strictly exceeds the eight-hour window: one spot sell
and one close-short order sized to the stored quantity, post-state
Idle. -/
theorem open_expired_window_tick_closes (cfg : StrategyCfg) (funding mark now : ℚ)
    (r1 r2 : Json) (s : EngineState) (p : PositionState)
    (hpos : s.position = some p) (hf : funding ≥ cfg.funding_threshold)
    (ht : now - p.opened_ts > 8 * 3600) :
    check_and_trade cfg funding mark now (Except.ok r1) (Except.ok r2) s =
      ({ position := none,
         store := some (save_state_doc (some { p with closed_ts := some now })) },
       [Order.spotOrder cfg.symbol_spot "sell" (fmtFixed 6 p.spot_qty) "market" none,
        Order.mixOrder cfg.symbol_perp cfg.margin_coin "close_short"
          (fmtFixed 6 p.spot_qty) "market"],
       none) := by
  obtain ⟨pos, st⟩ := s
  dsimp only at hpos
  subst hpos
  simp only [check_and_trade]
  rw [if_neg (not_lt.mpr hf), if_pos ht]
  rfl

/-- Witness for the amended C5: one second past the eight-hour window
(tick at 28801) with funding still exactly at the threshold, the demo
position is closed. -/
theorem open_expired_window_tick_closes_witness :
    (⟨some demoPos, some (save_state_doc (some demoPos))⟩ : EngineState).position
        = some demoPos ∧
    (1/10000 : ℚ) ≥ demoCfg.funding_threshold ∧
    (28801 : ℚ) - demoPos.opened_ts > 8 * 3600 ∧
    check_and_trade demoCfg (1/10000) 50000 28801 (Except.ok Json.null) (Except.ok Json.null)
        ⟨some demoPos, some (save_state_doc (some demoPos))⟩ =
      ({ position := none,
         store := some (save_state_doc (some { demoPos with closed_ts := some 28801 })) },
       [Order.spotOrder "BTCUSDT" "sell" "0.001000" "market" none,
        Order.mixOrder "BTCUSDT_UMCBL" "USDT" "close_short" "0.001000" "market"],
       none) := by
  refine ⟨rfl, by norm_num [demoCfg], by norm_num [demoPos], ?_⟩
  have h := open_expired_window_tick_closes demoCfg (1/10000) 50000 28801 Json.null Json.null
    ⟨some demoPos, some (save_state_doc (some demoPos))⟩ demoPos rfl
    (by norm_num [demoCfg]) (by norm_num [demoPos])
  rw [h]
  have hs : fmtFixed 6 demoPos.spot_qty = "0.001000" := by
    rw [fmtFixed_eq_of_scale 6 _ 1000 (by norm_num [demoPos])]
    decide
  rw [hs]
  rfl

lemma spot_order_loop_ok : ∀ (pre : List (Except String Json)) (r : Json)
    (rest : List (Except String Json)) (acc : Option String),
    (∀ a ∈ pre, ∃ e, a = Except.error e) →
    spot_order_loop (pre ++ Except.ok r :: rest) acc = Except.ok r := by
  intro pre
  induction pre with
  | nil => intro r rest acc h; rfl
  | cons a t ih =>
      intro r rest acc h
      obtain ⟨e, he⟩ := h a (List.mem_cons_self a t)
      subst he
      rw [List.cons_append]
      show spot_order_loop (t ++ Except.ok r :: rest) (some e) = Except.ok r
      exact ih r rest (some e) (fun x hx => h x (List.mem_cons_of_mem _ hx))

lemma spot_order_loop_last : ∀ (es : List String) (e : String) (acc : Option String),
    spot_order_loop ((es ++ [e]).map Except.error) acc = Except.error e := by
  intro es
  induction es with
  | nil => intro e acc; rfl
  | cons a t ih =>
      intro e acc
      rw [List.cons_append, List.map_cons]
      show spot_order_loop ((t ++ [e]).map Except.error) (some a) = Except.error e
      exact ih e (some a)

lemma mark_resolve_ok : ∀ (pre : List (Except String Json)) (r : Json)
    (rest : List (Except String Json)),
    (∀ a ∈ pre, ∃ e, a = Except.error e) →
    get_mark_price_resolve (pre ++ Except.ok r :: rest) = Except.ok r := by
  intro pre
  induction pre with
  | nil => intro r rest h; rfl
  | cons a t ih =>
      intro r rest h
      obtain ⟨e, he⟩ := h a (List.mem_cons_self a t)
      subst he
      rw [List.cons_append]
      show get_mark_price_resolve (t ++ Except.ok r :: rest) = Except.ok r
      exact ih r rest (fun x hx => h x (List.mem_cons_of_mem _ hx))

lemma mark_resolve_all : ∀ (es : List String) (e : String),
    get_mark_price_resolve ((es ++ [e]).map Except.error) =
      Except.error "Mark price fetch failed" := by
  intro es
  induction es with
  | nil => intro e; rfl
  | cons a t ih =>
      intro e
      rw [List.cons_append, List.map_cons]
      show get_mark_price_resolve ((t ++ [e]).map Except.error) = _
      exact ih e

/-- Counterexample to C6 as stated: when every mark-price endpoint
variant fails, the resolver raises the fixed message
"Mark price fetch failed", which is independent of the underlying
variant errors (two runs with different final errors raise the same
value) and differs from the most recent variant error, so that error is
not carried. -/
theorem mark_price_fallback_drops_last_error :
    get_mark_price_resolve [Except.error "e1", Except.error "e2", Except.error "e3",
        Except.error "e4"] = Except.error "Mark price fetch failed" ∧
    get_mark_price_resolve [Except.error "e1", Except.error "e2", Except.error "e3",
        Except.error "other"] =
      get_mark_price_resolve [Except.error "e1", Except.error "e2", Except.error "e3",
        Except.error "e4"] ∧
    ("Mark price fetch failed" : String) ≠ "e4" := by
  refine ⟨rfl, rfl, ?_⟩
  decide

/-- C6 (amended): both resolvers attempt each variant at most once, in
order, and return the first successful response verbatim, never
touching later variants; when every variant fails, spot-order
placement re-raises the most recent underlying error, while mark-price
resolution raises a fixed error that does not carry the underlying
one. -/
theorem fallback_first_success_and_spot_last_error :
    (∀ (pre : List (Except String Json)) (r : Json) (rest : List (Except String Json)),
        (∀ a ∈ pre, ∃ e, a = Except.error e) →
        place_spot_order_resolve (pre ++ Except.ok r :: rest) = Except.ok r ∧
        get_mark_price_resolve (pre ++ Except.ok r :: rest) = Except.ok r) ∧
    (∀ (es : List String) (e : String),
        place_spot_order_resolve ((es ++ [e]).map Except.error) = Except.error e ∧
        get_mark_price_resolve ((es ++ [e]).map Except.error) =
          Except.error "Mark price fetch failed") := by
  constructor
  · intro pre r rest h
    exact ⟨spot_order_loop_ok pre r rest none h, mark_resolve_ok pre r rest h⟩
  · intro es e
    exact ⟨spot_order_loop_last es e none, mark_resolve_all es e⟩

/-- Witness for the amended C6: one failing variant followed by a
success returns the success verbatim for both resolvers; three failing
variants give the last error for spot orders and the fixed message for
mark price. -/
theorem fallback_first_success_and_spot_last_error_witness :
    (∀ a ∈ ([Except.error "boom"] : List (Except String Json)), ∃ e, a = Except.error e) ∧
    place_spot_order_resolve ([Except.error "boom"] ++ Except.ok (Json.num 7) ::
        [Except.error "later"]) = Except.ok (Json.num 7) ∧
    get_mark_price_resolve ([Except.error "boom"] ++ Except.ok (Json.num 7) ::
        [Except.error "later"]) = Except.ok (Json.num 7) ∧
    place_spot_order_resolve ((["a", "b"] ++ ["c"]).map Except.error) = Except.error "c" ∧
    get_mark_price_resolve ((["a", "b"] ++ ["c"]).map Except.error) =
      Except.error "Mark price fetch failed" := by
  have hpre : ∀ a ∈ ([Except.error "boom"] : List (Except String Json)),
      ∃ e, a = Except.error e := by
    intro a ha
    rw [List.mem_singleton] at ha
    exact ⟨"boom", ha⟩
  exact ⟨hpre,
    (fallback_first_success_and_spot_last_error.1 _ _ _ hpre).1,
    (fallback_first_success_and_spot_last_error.1 _ _ _ hpre).2,
    (fallback_first_success_and_spot_last_error.2 ["a", "b"] "c").1,
    (fallback_first_success_and_spot_last_error.2 ["a", "b"] "c").2⟩

/-- Counterexample to C7 as stated: a data mapping whose first-priority
field markPrice is present and non-null with value 0 makes the
normalizer fail with the shape error instead of returning 0 — the
source uses Python `or`, which skips falsy values, so the first
present non-null field does not win when its value is zero. -/
theorem mark_price_zero_first_field_is_error :
    get_mark_price_value (Json.obj [("data", Json.obj [("markPrice", Json.num 0)])]) =
      Except.error "Unexpected mark price response" ∧
    get_mark_price_value (Json.obj [("data", Json.obj [("markPrice", Json.num 0)])]) ≠
      Except.ok 0 := by
  have h1 : get_mark_price_value (Json.obj [("data", Json.obj [("markPrice", Json.num 0)])]) =
      Except.error "Unexpected mark price response" := rfl
  refine ⟨h1, ?_⟩
  rw [h1]
  simp

/-- C7 (amended): the normalizer returns the numeric value of the first
field among markPrice, close, last whose value is truthy; a value that
is merely non-null wins only in the final `last` position, so a
one-element list (or mapping) carrying only `last` — including last
equal to 0 — yields that value, while a zero markPrice with null later
fields yields a shape error. -/
theorem mark_price_first_truthy_field_wins :
    (∀ q : ℚ,
        get_mark_price_value (Json.obj [("data", Json.arr [Json.obj [("last", Json.num q)]])]) =
          Except.ok q) ∧
    (∀ q : ℚ,
        get_mark_price_value (Json.obj [("data", Json.obj [("last", Json.num q)])]) =
          Except.ok q) ∧
    (∀ q : ℚ, q ≠ 0 → ∀ c l : Json,
        get_mark_price_value (Json.obj [("data",
            Json.obj [("markPrice", Json.num q), ("close", c), ("last", l)])]) =
          Except.ok q) ∧
    (∀ q : ℚ, q ≠ 0 →
        get_mark_price_value (Json.obj [("data", Json.obj [("close", Json.num q)])]) =
          Except.ok q) := by
  refine ⟨fun q => rfl, fun q => rfl, ?_, ?_⟩
  · intro q hq c l
    have ht : truthy (Json.num q) = true := by simp [truthy, hq]
    simp [get_mark_price_value, markChain, jget, pyOr, ht, isNull, pyFloat]
  · intro q hq
    simp [get_mark_price_value, markChain, jget, pyOr, truthy, hq, isNull, pyFloat]

/-- Witness for the amended C7: the spec scenario payload — a
one-element list carrying only `last` (value 0) — yields 0, and a
non-zero markPrice wins over null later fields in both tested
shapes. -/
theorem mark_price_first_truthy_field_wins_witness :
    get_mark_price_value (Json.obj [("data", Json.arr [Json.obj [("last", Json.num 0)]])]) =
      Except.ok 0 ∧
    ((3 : ℚ) ≠ 0) ∧
    get_mark_price_value (Json.obj [("data",
        Json.obj [("markPrice", Json.num 3), ("close", Json.null), ("last", Json.null)])]) =
      Except.ok 3 ∧
    get_mark_price_value (Json.obj [("data", Json.obj [("close", Json.num 3)])]) =
      Except.ok 3 :=
  ⟨mark_price_first_truthy_field_wins.1 0, by norm_num,
   mark_price_first_truthy_field_wins.2.2.1 3 (by norm_num) Json.null Json.null,
   mark_price_first_truthy_field_wins.2.2.2 3 (by norm_num)⟩

/-- C8: for a fixed timestamp, the signing input of the request builder
is the concatenation of the timestamp, the uppercased method, the path
with its URL-encoded query string appended exactly when query
parameters are non-empty, and the JSON body exactly for non-GET
requests with a non-empty body (the empty string otherwise, in
particular for every GET); the ACCESS-SIGN header is the base64
encoding of the HMAC-SHA256 digest of that string keyed by the
secret. -/
theorem signed_request_prehash_and_signature
    (mac : String → String → List ℕ) (ts method path : String)
    (params body : List (String × String)) (api_key api_secret api_passphrase : String) :
    (request_build mac ts method path params body api_key api_secret api_passphrase).prehash =
      ts ++ pyUpper method
        ++ (if params = [] then path else path ++ "?" ++ urlencode params)
        ++ (if body = [] ∨ pyUpper method = "GET" then "" else jsonDumpsBody body) ∧
    headerValue (request_build mac ts method path params body
        api_key api_secret api_passphrase).headers "ACCESS-SIGN" =
      some (base64Encode (mac api_secret
        (request_build mac ts method path params body
          api_key api_secret api_passphrase).prehash)) := by
  constructor
  · simp only [request_build]
    congr 1
    · congr 1
      cases params with
      | nil => simp
      | cons p ps => simp
    · cases body with
      | nil => simp
      | cons b bs =>
          by_cases hg : pyUpper method = "GET"
          · simp [hg]
          · simp [hg]
  · rfl

/-- C9: the symbol decomposition splits at the first underscore and
classifies the product from the suffix: "BTCUSDT_UMCBL" gives the bare
pair "BTCUSDT" with USDT-FUTURES, and "BTCUSDT_DMCBL" gives "BTCUSDT"
with COIN-FUTURES. -/
theorem derive_mix_params_examples :
    derive_mix_params "BTCUSDT_UMCBL" = ("BTCUSDT", "USDT-FUTURES") ∧
    derive_mix_params "BTCUSDT_DMCBL" = ("BTCUSDT", "COIN-FUTURES") :=
  ⟨rfl, rfl⟩

/-- C10: when either order placement of the open transition raises, the
whole engine state is unchanged — the in-memory position keeps its
prior value (absent when opening from Idle) and the store is not
written, because the position construction and the save run only after
both order calls return. -/
theorem open_pair_trade_failure_leaves_state (cfg : StrategyCfg) (mark now : ℚ)
    (spotRes perpRes : Except String Json) (s : EngineState)
    (h : (∃ e, spotRes = Except.error e) ∨ (∃ e, perpRes = Except.error e)) :
    (open_pair_trade cfg mark now spotRes perpRes s).1 = s := by
  rcases h with ⟨e, he⟩ | ⟨e, he⟩
  · subst he
    rfl
  · cases spotRes with
    | error e2 => rfl
    | ok r =>
        subst he
        rfl

/-- Witness for C10: a failing spot order (HTTP 400) during an open
attempt from the Idle state with an empty store leaves the state
exactly as it was. -/
theorem open_pair_trade_failure_leaves_state_witness :
    ((∃ e, (Except.error "HTTP 400" : Except String Json) = Except.error e) ∨
      (∃ e, (Except.ok Json.null : Except String Json) = Except.error e)) ∧
    (open_pair_trade demoCfg 50000 0 (Except.error "HTTP 400") (Except.ok Json.null)
        ⟨none, none⟩).1 = (⟨none, none⟩ : EngineState) :=
  ⟨Or.inl ⟨"HTTP 400", rfl⟩,
   open_pair_trade_failure_leaves_state demoCfg 50000 0 _ _ _ (Or.inl ⟨"HTTP 400", rfl⟩)⟩
